import Mathlib

/-!
Verification of the PokemonRomPlayer decision core against its specification.

The Lean definitions below are shallow embeddings of:
  * `src/src/ai/pathfinding.py`        (the grid A* search, CPython `heapq` included)
  * `src/src/agents/crew_manager.py`   (arbiter tick, state-change check)
  * `src/src/crew/crew_manager.py`     (task scheduler, retry / recovery)
  * `src/src/ai/battle_agent.py`       (battle action selection)
  * `src/src/agents/battle_agent.py`   (move scoring, type effectiveness)

Machine integers of the source are modelled by `Int` / `Nat`; the float costs
of the pathfinder only ever take integral values on the cardinal-move code
path (step cost 1.0, integer Manhattan heuristic), so `Nat` is exact; the
float ratios and multipliers of the battle code are modelled by `ℚ` (all
constants involved, 0.5 / 1.0 / 2.0 / 0.3, and their products are exactly
representable binary floats, so `ℚ` arithmetic agrees with the float
arithmetic of the source on these code paths).
-/

set_option linter.unusedVariables false
set_option linter.unnecessarySeqFocus false

namespace PokemonRom

/-! ### Pathfinder (`src/src/ai/pathfinding.py`)

`Node` objects of the source are mutable and shared between `all_nodes`,
the `open_set` heap and the `closed_set`.  The embedding keeps one node
store (`Store`, keyed by position, mirroring `all_nodes`) and represents
the heap and the closed set as lists of positions; any read of a node field
goes through the store, which reproduces the reference semantics of the
Python objects exactly (in particular an in-place `g_cost` decrease is
visible to the heap).  The CPython `heapq` functions `heappush` / `heappop`
(`_siftdown` / `_siftup`) are reproduced verbatim; `Node.__lt__` compares
`f_cost = g_cost + h_cost`. -/

/-- Position on the grid, `(x, y)` with Python `int` coordinates. -/
abbrev Pos := Int × Int

/-- Data of a `Node` of `pathfinding.py`: `g_cost`, `h_cost`, `parent`.
Nodes are created either for the start (with `g = 0`) or at first discovery
of a neighbor, where the source immediately replaces the initial
`g = float('inf')` by the tentative cost before the node is pushed, so a
stored node always carries a finite `g`. -/
structure PNode where
  g : Nat
  h : Nat
  parent : Option Pos
deriving Repr, DecidableEq

/-- The `all_nodes` dictionary: position-keyed association list. -/
abbrev Store := List (Pos × PNode)

/-- Dictionary lookup in `all_nodes`. -/
def storeFind : Store → Pos → Option PNode
  | [], _ => none
  | (q, d) :: rest, p => if q = p then some d else storeFind rest p

/-- In-place update of the node stored at a position (mutating a `Node`
object of the source). -/
def storeSet : Store → Pos → PNode → Store
  | [], p, d => [(p, d)]
  | (q, e) :: rest, p, d =>
    if q = p then (p, d) :: rest else (q, e) :: storeSet rest p d

/-- Position membership (`in` on `open_set` / `closed_set`, whose `Node`
elements hash and compare by position). -/
def posMem (p : Pos) : List Pos → Bool
  | [] => false
  | q :: rest => if q = p then true else posMem p rest

/-- List indexing `heap[i]` (all uses are in bounds; the default is dead). -/
def lget (l : List Pos) (i : Nat) : Pos := l.getD i (0, 0)

/-- List assignment `heap[i] = v`. -/
def lset (l : List Pos) (i : Nat) (v : Pos) : List Pos := l.set i v

/-- `Node.f_cost` read through the store (`g_cost + h_cost`). -/
def fCost (st : Store) (p : Pos) : Nat :=
  match storeFind st p with
  | some d => d.g + d.h
  | none => 0

/-- `Node.__lt__`: strict comparison of `f_cost`s at their current values. -/
def nodeLt (st : Store) (a b : Pos) : Bool := decide (fCost st a < fCost st b)

/-- Loop of CPython `heapq._siftdown`: walk the new item up from `pos`
toward `startpos`, moving larger parents down.  The fuel is the starting
index plus one, which strictly bounds the number of iterations since the
index decreases every step. -/
def siftdownLoop (st : Store) (newitem : Pos) (startpos : Nat) :
    Nat → Nat → List Pos → List Pos × Nat
  | 0, pos, heap => (heap, pos)
  | fuel + 1, pos, heap =>
    if startpos < pos then
      let parentpos := (pos - 1) / 2
      let parent := lget heap parentpos
      if nodeLt st newitem parent then
        siftdownLoop st newitem startpos fuel parentpos (lset heap pos parent)
      else (heap, pos)
    else (heap, pos)

/-- CPython `heapq._siftdown(heap, startpos, pos)`. -/
def siftdown (st : Store) (heap : List Pos) (startpos pos : Nat) : List Pos :=
  let newitem := lget heap pos
  let r := siftdownLoop st newitem startpos (pos + 1) pos heap
  lset r.1 r.2 newitem

/-- CPython `heapq.heappush`: append, then sift down from the last index. -/
def heappush (st : Store) (heap : List Pos) (item : Pos) : List Pos :=
  let h2 := heap ++ [item]
  siftdown st h2 0 (h2.length - 1)

/-- Loop of CPython `heapq._siftup`: move the smaller child up until a leaf
is reached.  The child index strictly increases and is bounded by `endpos`,
so `endpos + 1` fuel strictly bounds the iterations. -/
def siftupLoop (st : Store) (endpos : Nat) :
    Nat → Nat → List Pos → List Pos × Nat
  | 0, pos, heap => (heap, pos)
  | fuel + 1, pos, heap =>
    let childpos := 2 * pos + 1
    if childpos < endpos then
      let rightpos := childpos + 1
      let childpos2 :=
        if rightpos < endpos && !(nodeLt st (lget heap childpos) (lget heap rightpos)) then
          rightpos
        else childpos
      siftupLoop st endpos fuel childpos2 (lset heap pos (lget heap childpos2))
    else (heap, pos)

/-- CPython `heapq._siftup(heap, pos)`: bubble the vacated root down to a
leaf, place the new item there, then `_siftdown` back up. -/
def siftup (st : Store) (heap : List Pos) (pos : Nat) : List Pos :=
  let endpos := heap.length
  let newitem := lget heap pos
  let r := siftupLoop st endpos (endpos + 1) pos heap
  siftdown st (lset r.1 r.2 newitem) pos r.2

/-- CPython `heapq.heappop`: pop the last element; if the heap is still
nonempty, move it to the root and `_siftup`.  Returns `none` exactly when
the heap is empty (the source guards the call with `while open_set`). -/
def heappop (st : Store) (heap : List Pos) : Option (Pos × List Pos) :=
  match heap with
  | [] => none
  | a :: rest0 =>
    let heap := a :: rest0
    let n := heap.length
    let lastelt := lget heap (n - 1)
    let rest := heap.take (n - 1)
    if rest.isEmpty then some (lastelt, [])
    else some (lget rest 0, siftup st (lset rest 0 lastelt) 0)

/-- Shape of the collision map: `self.height, self.width = collision_map.shape`. -/
def gridHeight (grid : List (List Bool)) : Nat := grid.length

/-- Width of the collision map (row length of the 2-D array). -/
def gridWidth (grid : List (List Bool)) : Nat := (grid.headD []).length

/-- `PathFinder._is_valid_position`: `0 <= x < width and 0 <= y < height`. -/
def isValidPosition (width height : Nat) (x y : Int) : Bool :=
  decide (0 ≤ x) && decide (x < (width : Int)) && decide (0 ≤ y) && decide (y < (height : Int))

/-- Walkability read `collision_map[new_y, new_x]` (row-major, `[y][x]`);
only evaluated after the bounds check, so the `toNat` coercions are exact. -/
def gridWalkable (grid : List (List Bool)) (x y : Int) : Bool :=
  (grid.getD y.toNat []).getD x.toNat false

/-- `PathFinder._calculate_h_cost`: Manhattan distance. -/
def calculateHCost (x1 y1 x2 y2 : Int) : Nat :=
  (x2 - x1).natAbs + (y2 - y1).natAbs

/-- `PathFinder._get_neighbors`: cardinal directions only, in source order. -/
def getNeighbors : List (Int × Int) := [(0, 1), (1, 0), (0, -1), (-1, 0)]

/-- Body of the neighbor loop of `find_path` for one `(dx, dy)`; threads the
node store and the open heap.  `move_cost` is always `STRAIGHT_COST = 1`
since the neighbor list is cardinal.  A fresh position is necessarily
outside `closed_set` and `open_set` (both only ever hold positions present
in `all_nodes`), so the source's membership tests on the just-created node
are decided and inlined here. -/
def relaxNeighbor (grid : List (List Bool)) (width height : Nat) (goal current : Pos)
    (closed : List Pos) (acc : Store × List Pos) (d : Int × Int) : Store × List Pos :=
  let store := acc.1
  let openH := acc.2
  let nx := current.1 + d.1
  let ny := current.2 + d.2
  if !isValidPosition width height nx ny then acc
  else if !gridWalkable grid nx ny then acc
  else
    let curG := match storeFind store current with | some nd => nd.g | none => 0
    let tentative := curG + 1
    let pos : Pos := (nx, ny)
    match storeFind store pos with
    | none =>
      let nd : PNode := ⟨tentative, calculateHCost nx ny goal.1 goal.2, some current⟩
      let store2 := store ++ [(pos, nd)]
      (store2, heappush store2 openH pos)
    | some nd =>
      if posMem pos closed && decide (nd.g ≤ tentative) then acc
      else if decide (tentative < nd.g) then
        let store2 := storeSet store pos ⟨tentative, nd.h, some current⟩
        let open2 := if posMem pos openH then openH else heappush store2 openH pos
        (store2, open2)
      else acc

/-- `PathFinder._reconstruct_path`: follow parent links, collecting
positions from the goal back to the start (the source appends and then
reverses; prepending yields the same list).  Parent chains are acyclic
(the `g` values strictly decrease along them), so a fuel larger than the
store size is never exhausted. -/
def reconstructPath (store : Store) : Nat → Option Pos → List Pos → List Pos
  | _, none, acc => acc
  | 0, some _, acc => acc
  | fuel + 1, some p, acc =>
    reconstructPath store fuel ((storeFind store p).bind (·.parent)) (p :: acc)

/-- The `while open_set:` loop of `find_path`.  Each iteration pops the
heap root, finishes if it is the goal, otherwise closes it and relaxes its
four neighbors in order. -/
def searchLoop (grid : List (List Bool)) (width height : Nat) (goal : Pos) :
    Nat → Store → List Pos → List Pos → List Pos
  | 0, _, _, _ => []
  | fuel + 1, store, openH, closed =>
    match heappop store openH with
    | none => []
    | some (current, openRest) =>
      if current = goal then
        reconstructPath store (store.length + 1) (some current) []
      else
        let closed2 := current :: closed
        let r := getNeighbors.foldl
          (relaxNeighbor grid width height goal current closed2) (store, openRest)
        searchLoop grid width height goal fuel r.1 r.2 closed2

/-- `PathFinder.find_path`: bounds-validate both endpoints (walkability of
neither is checked), seed the open list with the start node (`g = 0`,
Manhattan `h`) and run the search.  The fuel passed to the loop strictly
exceeds the number of iterations any input of the stated sizes can perform
(every pop was pushed, and a position is pushed at most once per strict
`g`-decrease, of which there are at most `width * height` per position). -/
def findPath (grid : List (List Bool)) (start goal : Pos) : List Pos :=
  let height := gridHeight grid
  let width := gridWidth grid
  if !isValidPosition width height start.1 start.2 then []
  else if !isValidPosition width height goal.1 goal.2 then []
  else
    let startNode : PNode := ⟨0, calculateHCost start.1 start.2 goal.1 goal.2, none⟩
    let store : Store := [(start, startNode)]
    searchLoop grid width height goal
      ((width * height + 1) * (width * height + 1) + 1) store [start] []

/-! ### Game modes and arbiter (`src/src/agents/crew_manager.py`)

The snapshots compared by `CrewManager._state_changed` are instances of
the `GameState` dataclass of `src/src/emulator/interface.py`
(`player_x, player_y, current_map, in_battle, in_menu, mode, ...`); the
`mode` field carries the `GameMode` enum of `src/src/emulator/game_state.py`. -/

/-- The `GameMode` enum of `src/src/emulator/game_state.py`. -/
inductive GameMode
  | unknown
  | battle
  | dialog
  | menu
  | overworld
deriving Repr, DecidableEq

/-- The snapshot dataclass `GameState` of `src/src/emulator/interface.py`
(the fields `current_pokemon` and `inventory` are never read by the code
embedded here and are omitted). -/
structure IGameState where
  playerX : Int
  playerY : Int
  currentMap : Int
  inBattle : Bool
  inMenu : Bool
  mode : GameMode
deriving Repr, DecidableEq

/-- `CrewManager._state_changed`: given the retained `self.last_state` and
the current snapshot, returns the boolean the method returns together with
the value `self.last_state` holds after the call.  The source returns
`True` early when `last_state` is `None` — without recording the snapshot —
and otherwise compares `in_battle`, `in_menu` and `current_map`, then
overwrites `self.last_state` with the current snapshot. -/
def stateChanged (lastState : Option IGameState) (cur : IGameState) :
    Bool × Option IGameState :=
  match lastState with
  | none => (true, none)
  | some last =>
    let changed :=
      decide (cur.inBattle ≠ last.inBattle) ||
      decide (cur.inMenu ≠ last.inMenu) ||
      decide (cur.currentMap ≠ last.currentMap)
    (changed, some cur)

/-- Mutable fields of `CrewManager` read or written by `update`:
`active_agent` (by registered name) and `last_state`. -/
structure CrewMState where
  activeAgent : Option String
  lastState : Option IGameState
deriving Repr, DecidableEq

/-- Registered agents: `self.agents` is an insertion-ordered dict from name
to an agent whose `can_handle(state)` the manager queries.  An agent is
embedded as its `can_handle` predicate. -/
abbrev AgentList := List (String × (IGameState → Bool))

/-- `CrewManager.get_appropriate_agent`: query `can_handle` of every
registered agent, collect the candidates in registration order, and return
the first (`candidates[0]`), or `None` when no agent can handle the state. -/
def getAppropriateAgent (agents : AgentList) (s : IGameState) : Option String :=
  ((agents.filter (fun a => a.2 s)).head?).map (·.1)

/-- One tick of `CrewManager.update` (after `state_manager.update()` has
produced `cur`): run `_state_changed` (whose only effect beyond its boolean
is the `last_state` write; `_handle_state_change` only logs), then select
and invoke an agent via `get_appropriate_agent`.  Returns the new manager
state, the name of the agent invoked this tick (`none` when no agent could
handle the state), and the query log of the `can_handle` loop — the list of
`(agent name, answer)` pairs the tick evaluated. -/
def crewUpdate (agents : AgentList) (m : CrewMState) (cur : IGameState) :
    CrewMState × Option String × List (String × Bool) :=
  let sc := stateChanged m.lastState cur
  let log := agents.map (fun a => (a.1, a.2 cur))
  match getAppropriateAgent agents cur with
  | some name => (⟨some name, sc.2⟩, some name, log)
  | none => (⟨m.activeAgent, sc.2⟩, none, log)

/-! ### Task scheduler (`src/src/crew/crew_manager.py`) -/

/-- `CrewManager.get_ready_tasks`: iterate `self.task_dependencies`
(insertion-ordered dict, embedded as an association list from task name to
its declared dependency set) and collect every task that is not completed
and whose dependencies are a subset of `self.completed_tasks`. -/
def getReadyTasks (deps : List (String × List String)) (completed : List String) :
    List String :=
  (deps.filter (fun td =>
    !(completed.contains td.1) && td.2.all (fun d => completed.contains d))).map (·.1)

/-- Whether `pat` occurs at the head of `hay` (character-list view of the
Python substring test). -/
def charsStartWith : List Char → List Char → Bool
  | _, [] => true
  | [], _ :: _ => false
  | a :: as, b :: bs => if a = b then charsStartWith as bs else false

/-- Python substring containment `pat in hay` on character lists. -/
def charsContain : List Char → List Char → Bool
  | [], pat => pat.isEmpty
  | a :: as, pat => charsStartWith (a :: as) pat || charsContain as pat

/-- ASCII lowercasing of one character (`str.lower()` restricted to the
ASCII range; every error type and task name in scope is ASCII). -/
def charLower (c : Char) : Char :=
  if 65 ≤ c.toNat ∧ c.toNat ≤ 90 then Char.ofNat (c.toNat + 32) else c

/-- The recovery lookup of `handle_error`: first `(error_type, action)`
pair of the `recovery_actions` table whose `error_type` is a substring of
the lowercased task name. -/
def matchRecovery (actions : List (String × String)) (taskName : String) :
    Option String :=
  match actions with
  | [] => none
  | (errType, action) :: rest =>
    if charsContain (taskName.toList.map charLower) errType.toList then some action
    else matchRecovery rest taskName

/-- Configuration and collaborators of the scheduler: the `error_handling`
settings (`max_retries`, `max_consecutive_failures`, `recovery_actions`)
and the presence of the agents `_execute_recovery_action` consults, plus
the boolean outcome of the battle agent's external `execute_battle_turn`
call used by the `retreat` branch. -/
structure CrewCfg where
  maxRetries : Nat
  maxConsecutiveFailures : Nat
  recoveryActions : List (String × String)
  hasBattleAgent : Bool
  hasNavAgent : Bool
  hasMenuAgent : Bool
  battleTurnResult : Bool
deriving Repr, DecidableEq

/-- Python exceptions crossing the embedded code. -/
inductive PyError
  | nameError
deriving Repr, DecidableEq

/-- Body of `CrewManager._execute_recovery_action` before its
`except Exception` handler.  The `reset_to_main` branch constructs
`MenuRequest(action=MenuAction.CLOSE_MENU, ...)`, but neither `MenuRequest`
nor `MenuAction` is defined or imported in `src/src/crew/crew_manager.py`
(they live unimported in `crew/agents/crew_menu_agent.py`), so reaching
that expression raises `NameError`.  A recognized action whose agent is
missing falls through to the `Unknown recovery action` warning and returns
`False`. -/
def executeRecoveryActionBody (cfg : CrewCfg) (action : String) : Except PyError Bool :=
  if action = "retreat" then
    if cfg.hasBattleAgent then .ok cfg.battleTurnResult else .ok false
  else if action = "return_to_last_center" then
    if cfg.hasNavAgent then .ok true else .ok false
  else if action = "reset_to_main" then
    if cfg.hasMenuAgent then .error .nameError else .ok false
  else .ok false

/-- `CrewManager._execute_recovery_action`: the surrounding
`except Exception` handler logs and returns `False` on any raise. -/
def executeRecoveryAction (cfg : CrewCfg) (action : String) : Bool :=
  match executeRecoveryActionBody cfg action with
  | .ok b => b
  | .error _ => false

/-- Mutable scheduler state touched by the embedded methods:
`completed_tasks` (a set, kept as a duplicate-free list),
`consecutive_failures`, and `task_errors` (per-task count of recorded
`TaskError` entries — each recorded entry carries `attempt = len + 1`, so
the count determines the attempts list). -/
structure SchedState where
  completed : List String
  consecutiveFailures : Nat
  taskErrors : List (String × Nat)
deriving Repr, DecidableEq

/-- Count of recorded errors for a task (`len(self.task_errors[name])`,
zero when the task has no entry). -/
def errCount (errs : List (String × Nat)) (name : String) : Nat :=
  match errs with
  | [] => 0
  | (n, k) :: rest => if n = name then k else errCount rest name

/-- Append of one `TaskError` for a task (creating its list if absent). -/
def recordError (errs : List (String × Nat)) (name : String) : List (String × Nat) :=
  match errs with
  | [] => [(name, 1)]
  | (n, k) :: rest =>
    if n = name then (n, k + 1) :: rest else (n, k) :: recordError rest name

/-- `CrewManager.handle_error` with a task name supplied (as every call in
`execute_task` does): increment `consecutive_failures` and abort (`False`)
when it exceeds `max_consecutive_failures` (no error is recorded on that
path); otherwise record the error, and either run the matched recovery
action — returning its result — or default to wait-and-retry (`True`). -/
def handleError (cfg : CrewCfg) (st : SchedState) (taskName : String) :
    Bool × SchedState :=
  let failures := st.consecutiveFailures + 1
  let st1 : SchedState := ⟨st.completed, failures, st.taskErrors⟩
  if cfg.maxConsecutiveFailures < failures then (false, st1)
  else
    let recovery := matchRecovery cfg.recoveryActions taskName
    let st2 : SchedState := ⟨st1.completed, st1.consecutiveFailures, recordError st1.taskErrors taskName⟩
    match recovery with
    | some action => (executeRecoveryAction cfg action, st2)
    | none => (true, st2)

/-- `CrewManager.reset_error_state`. -/
def resetErrorState (st : SchedState) : SchedState :=
  ⟨st.completed, 0, []⟩

/-- Set-insertion into `completed_tasks`. -/
def addCompleted (l : List String) (n : String) : List String :=
  if l.contains n then l else l ++ [n]

/-- Dependencies declared for a task (`self.task_dependencies[name]`;
every task executed by the embedded flows is a key of the dict). -/
def depsOf (deps : List (String × List String)) (name : String) : List String :=
  match deps with
  | [] => []
  | (n, ds) :: rest => if n = name then ds else depsOf rest name

/-- The `for attempt in range(max_retries)` loop of
`CrewManager.execute_task`.  `body attempt` is the outcome of
`self.crew.execute_task(task)` on that attempt (`false` = it raised).  On
success: reset the error state, mark the task completed, return the
result; on failure: `handle_error`, aborting the loop (returning `None`)
when it reports failure; a fully exhausted loop also returns `None`. -/
def executeTaskAttempts (cfg : CrewCfg) (name : String) (body : Nat → Bool) :
    Nat → Nat → SchedState → Option Unit × SchedState
  | 0, _, st => (none, st)
  | n + 1, attempt, st =>
    if body attempt then
      let st1 := resetErrorState st
      (some (), ⟨addCompleted st1.completed name, st1.consecutiveFailures, st1.taskErrors⟩)
    else
      match handleError cfg st name with
      | (true, st1) => executeTaskAttempts cfg name body n (attempt + 1) st1
      | (false, st1) => (none, st1)

/-- `CrewManager.execute_task`: refuse (returning `None`) when the task's
declared dependencies are not a subset of `completed_tasks`, otherwise run
the retry loop.  The embedding assumes the `Task` object exists in
`self.tasks` (the `create_task` path constructs external `crewai` objects
from configuration files and is outside this core). -/
def executeTask (cfg : CrewCfg) (deps : List (String × List String)) (name : String)
    (body : Nat → Bool) (st : SchedState) : Option Unit × SchedState :=
  if !((depsOf deps name).all (fun d => st.completed.contains d)) then (none, st)
  else executeTaskAttempts cfg name body cfg.maxRetries 0 st

/-- The `for task_name in ready_tasks` loop of `execute_all_tasks`:
execute each ready task in order and abort — returning `False` — as soon
as one of them yields `None`. -/
def runReadyTasks (cfg : CrewCfg) (deps : List (String × List String))
    (bodies : String → Nat → Bool) :
    List String → SchedState → Bool × SchedState
  | [], st => (true, st)
  | n :: rest, st =>
    match executeTask cfg deps n (bodies n) st with
    | (some _, st1) => runReadyTasks cfg deps bodies rest st1
    | (none, st1) => (false, st1)

/-- `CrewManager.execute_all_tasks`: while fewer tasks are completed than
exist in `self.tasks` (embedded as the name list `tasks`), compute the
ready set, fail (`False`) if it is empty, otherwise execute every ready
task, aborting on the first failure.  The loop always terminates (each
pass either returns or completes at least one task), so a fuel exceeding
the task count is never exhausted. -/
def executeAllTasks (cfg : CrewCfg) (deps : List (String × List String))
    (tasks : List String) (bodies : String → Nat → Bool) :
    Nat → SchedState → Bool × SchedState
  | 0, st => (false, st)
  | fuel + 1, st =>
    if st.completed.length < tasks.length then
      let ready := getReadyTasks deps st.completed
      if ready.isEmpty then (false, st)
      else
        match runReadyTasks cfg deps bodies ready st with
        | (true, st1) => executeAllTasks cfg deps tasks bodies fuel st1
        | (false, st1) => (false, st1)
    else (true, st)

/-! ### Battle action selection (`src/src/ai/battle_agent.py`)

This agent consumes the `GameState` / `BattleState` / `Pokemon` / `Player`
classes of `src/src/emulator/game_state.py`.  `analyze_state` reads the
attributes `battle.active_pokemon`, `battle.opponent_pokemon` and
`battle.is_wild_battle`; the embedding gives the battle record exactly the
attributes the function dereferences. -/

/-- The `Pokemon` dataclass of `src/src/emulator/game_state.py`; `moves`
is a list of bare move-name strings (no power, remaining-use or category
field exists).  `hp` and `max_hp` are Python ints. -/
structure GsPokemon where
  species : String
  level : Int
  hp : Int
  maxHp : Int
  moves : List String
deriving Repr, DecidableEq

/-- `Pokemon.is_fainted`: `hp <= 0`. -/
def isFainted (p : GsPokemon) : Bool := decide (p.hp ≤ 0)

/-- The `Player` dataclass (only `party` is read here). -/
structure GsPlayer where
  party : List GsPokemon
deriving Repr, DecidableEq

/-- The battle record as dereferenced by `analyze_state`
(`active_pokemon`, `opponent_pokemon`, `is_wild_battle`). -/
structure AiBattleState where
  activePokemon : Option GsPokemon
  opponentPokemon : Option GsPokemon
  isWildBattle : Bool
deriving Repr, DecidableEq

/-- The slice of `GameState` read by the agent: `mode` (through
`is_in_battle`), `battle`, and `player`. -/
structure AiGameState where
  mode : GameMode
  battle : Option AiBattleState
  player : GsPlayer
deriving Repr, DecidableEq

/-- `BattleStrategy` of `src/src/ai/battle_agent.py` (defaults:
`aggressive = True`, `switch_threshold = 0.3`, `use_items = True`,
`catch_wild = True`). -/
structure BattleStrategy where
  aggressive : Bool
  switchThreshold : ℚ
  useItems : Bool
  catchWild : Bool
deriving Repr, DecidableEq

/-- An `AgentAction` of `src/src/ai/agent.py`; the `parameters` dict is
flattened into the two keys the battle agent ever sets. -/
structure AgentAction where
  actionType : String
  moveIndex : Option Nat
  targetIndex : Option Nat
  priority : Int
deriving Repr, DecidableEq

/-- `BattleAgent._should_catch_pokemon`: stubbed to `True`. -/
def shouldCatchPokemon (p : GsPokemon) : Bool := true

/-- `BattleAgent._has_healthy_pokemon`: some party member is not fainted
and has an HP fraction above the switch threshold (empty party: `False`).
The float division `p.hp / p.max_hp` is exact in `ℚ` (the source would
raise `ZeroDivisionError` for `max_hp = 0`; the embedding is only applied
to states with positive `max_hp`). -/
def hasHealthyPokemon (strategy : BattleStrategy) (state : AiGameState) : Bool :=
  state.player.party.any (fun p =>
    !isFainted p && decide (strategy.switchThreshold < (p.hp : ℚ) / (p.maxHp : ℚ)))

/-- `BattleAgent._choose_switch_target`: stubbed to `None`. -/
def chooseSwitchTarget (state : AiGameState) (opponent : GsPokemon) : Option Nat :=
  none

/-- `BattleAgent._choose_best_move`: `0 if active.moves else None` — the
first move's index whenever the move list is nonempty, with no scoring of
any kind. -/
def chooseBestMove (active opponent : GsPokemon) : Option Nat :=
  if active.moves.isEmpty then none else some 0

/-- `BattleAgent.analyze_state`: not-in-battle or missing data gives no
action; then, in order: catch (wild battle, `catch_wild` strategy, catch
predicate), switch (low HP fraction, healthy teammate, and a switch target
— unreachable since `_choose_switch_target` is `None`), attack (best
move), run (wild battle fallback), else no action. -/
def analyzeState (strategy : BattleStrategy) (state : AiGameState) : Option AgentAction :=
  if !(decide (state.mode = GameMode.battle)) then none
  else
    match state.battle with
    | none => none
    | some b =>
      match b.activePokemon, b.opponentPokemon with
      | some active, some opponent =>
        let attackOrRun : Option AgentAction :=
          match chooseBestMove active opponent with
          | some i => some ⟨"attack", some i, none, 1⟩
          | none =>
            if b.isWildBattle then some ⟨"run", none, none, 0⟩ else none
        if strategy.catchWild && b.isWildBattle && shouldCatchPokemon opponent then
          some ⟨"catch", none, none, 3⟩
        else if decide ((active.hp : ℚ) / (active.maxHp : ℚ) ≤ strategy.switchThreshold)
            && hasHealthyPokemon strategy state then
          match chooseSwitchTarget state opponent with
          | some t => some ⟨"switch", none, some t, 2⟩
          | none => attackOrRun
        else attackOrRun
      | _, _ => none

/-- Modelled from the spec (for comparison only — the attack / run rule of
claim C6, which the source's `_choose_best_move` does not implement, and
whose inputs the source's move representation, bare name strings, cannot
even supply): a move record carrying the power, type, remaining uses and
category the spec's data model postulates. -/
structure SpecMove where
  name : String
  power : ℚ
  moveType : String
  pp : Nat
  category : String
deriving Repr, DecidableEq

/-- Modelled from the spec: score of one move — `power ×
effectiveness(move.type, opponent.types)`, zeroed for a move with no
remaining uses or a status-category move (no status-move weighting policy
is supplied). -/
def specMoveScore (eff : String → List String → ℚ) (oppTypes : List String)
    (m : SpecMove) : ℚ :=
  if m.pp = 0 then 0
  else if m.category = "status" then 0
  else m.power * eff m.moveType oppTypes

/-- Index of the maximum score (first maximum), used by the spec-side rule. -/
def specBestIndex (scores : List ℚ) : Nat :=
  (scores.foldl
    (fun acc s =>
      if acc.2.2 < s then (acc.1 + 1, acc.1, s) else (acc.1 + 1, acc.2.1, acc.2.2))
    ((1 : Nat), (0 : Nat), scores.headD 0)).2.1

/-- Modelled from the spec: the attack / run decision of claim C6 — issue
`Attack` at the best-scoring move when some move scores above zero,
otherwise `Run` exactly when the battle is wild. -/
def specAttackOrRun (eff : String → List String → ℚ) (oppTypes : List String)
    (moves : List SpecMove) (isWild : Bool) : Option AgentAction :=
  let scores := moves.map (specMoveScore eff oppTypes)
  if scores.any (fun s => decide (0 < s)) then
    some ⟨"attack", some (specBestIndex scores), none, 1⟩
  else if isWild then some ⟨"run", none, none, 0⟩
  else none

/-! ### Move scoring (`src/src/agents/battle_agent.py`) -/

/-- A move dict as consumed by `_calculate_move_score` (keys `power` and
`type`; a `category` key may be present but is never read). -/
structure CrewMove where
  power : ℚ
  moveType : String
  category : String
deriving Repr, DecidableEq

/-- The local `type_chart` of `_get_type_effectiveness` (the module-level
`TYPE_CHART` is unused by it): FIRE/WATER/GRASS rows only. -/
def typeChartLocal (moveType defType : String) : Option ℚ :=
  if moveType = "FIRE" then
    if defType = "GRASS" then some 2 else if defType = "WATER" then some (1/2) else none
  else if moveType = "WATER" then
    if defType = "FIRE" then some 2 else if defType = "GRASS" then some (1/2) else none
  else if moveType = "GRASS" then
    if defType = "WATER" then some 2 else if defType = "FIRE" then some (1/2) else none
  else none

/-- Whether `move_type in type_chart` holds for the local chart. -/
def chartHasMoveType (moveType : String) : Bool :=
  moveType = "FIRE" || moveType = "WATER" || moveType = "GRASS"

/-- `BattleAgent._get_type_effectiveness`: a move type absent from the
chart is neutral (`1.0`); otherwise multiply, over the defender's types,
the chart factor of each listed pairing (unlisted pairings leave the
multiplier unchanged). -/
def getTypeEffectiveness (moveType : String) (defenderTypes : List String) : ℚ :=
  if !chartHasMoveType moveType then 1
  else
    defenderTypes.foldl
      (fun m dt =>
        match typeChartLocal moveType dt with
        | some f => m * f
        | none => m) 1

/-- `BattleAgent._calculate_move_score`: `power × multiplier` (the move's
`category` is never consulted). -/
def calculateMoveScore (m : CrewMove) (opponentTypes : List String) : ℚ :=
  m.power * getTypeEffectiveness m.moveType opponentTypes

/-! ### Concrete instances and path predicates used by the statements below -/

/-- One cardinal (four-connected) step. -/
def isCardinalStep (a b : Pos) : Bool :=
  decide ((a.1 - b.1).natAbs + (a.2 - b.2).natAbs = 1)

/-- Every consecutive pair of the list is a cardinal step. -/
def isCardinalPath : List Pos → Bool
  | [] => true
  | [_] => true
  | a :: b :: rest => isCardinalStep a b && isCardinalPath (b :: rest)

/-- Every position of the list is in bounds and walkable in the grid. -/
def pathInGrid (grid : List (List Bool)) (l : List Pos) : Bool :=
  l.all (fun p =>
    isValidPosition (gridWidth grid) (gridHeight grid) p.1 p.2 && gridWalkable grid p.1 p.2)

/-- A 9-wide, 5-tall collision mask with exactly two blocked cells,
`(2, 1)` and `(4, 2)`. -/
def pfCexMask : List (List Bool) :=
  [[true, true, true, true, true, true, true, true, true],
   [true, true, false, true, true, true, true, true, true],
   [true, true, true, true, false, true, true, true, true],
   [true, true, true, true, true, true, true, true, true],
   [true, true, true, true, true, true, true, true, true]]

/-- A fully walkable Manhattan-geodesic path from `(8, 3)` to `(0, 1)` in
`pfCexMask`: west along row 3, then north along column 0.  Its node count,
11, equals the Manhattan distance 10 plus one. -/
def pfCexGeodesic : List Pos :=
  [(8, 3), (7, 3), (6, 3), (5, 3), (4, 3), (3, 3), (2, 3), (1, 3), (0, 3), (0, 2), (0, 1)]

/-- The all-walkable 5×5 grid of the specification's example. -/
def pfGrid5 : List (List Bool) := List.replicate 5 (List.replicate 5 true)

/-- Snapshot pair differing only in `mode` (claim C2). -/
def c2prev : IGameState := ⟨0, 0, 0, false, false, GameMode.overworld⟩

/-- Current snapshot for claim C2: same `in_battle`, `in_menu` and
`current_map` as `c2prev`, different `mode`. -/
def c2cur : IGameState := ⟨0, 0, 0, false, false, GameMode.dialog⟩

/-- Snapshot pair differing in battle presence (claim C8). -/
def c8prev : IGameState := ⟨0, 0, 0, false, false, GameMode.overworld⟩

/-- Current snapshot for claim C8: battle just began. -/
def c8cur : IGameState := ⟨0, 0, 0, true, false, GameMode.battle⟩

/-- A single registered battle agent whose `can_handle` is battle presence
(claim C3). -/
def c3agents : AgentList := [("battle", fun s => s.inBattle)]

/-- A battle snapshot claim C3's two identical ticks observe. -/
def c3state : IGameState := ⟨0, 0, 0, true, false, GameMode.battle⟩

/-- Fresh manager state (`active_agent = None`, `last_state = None`). -/
def c3m0 : CrewMState := ⟨none, none⟩

/-- The 4-task diamond DAG of claim C4: `B` and `C` depend on `A`, `D`
depends on both `B` and `C`. -/
def diamondDeps : List (String × List String) :=
  [("A", []), ("B", ["A"]), ("C", ["A"]), ("D", ["B", "C"])]

/-- Scheduler configuration with the default `max_retries = 3`,
`max_consecutive_failures = 3` and no recovery table (claim C5). -/
def c5cfg : CrewCfg := ⟨3, 3, [], false, false, false, false⟩

/-- Two independent tasks (claim C5). -/
def c5deps : List (String × List String) := [("A", []), ("B", [])]

/-- The `self.tasks` keys for claim C5. -/
def c5tasks : List String := ["A", "B"]

/-- Task bodies for claim C5: `A` always fails, `B` always succeeds. -/
def c5bodies : String → Nat → Bool := fun n _ => if n = "A" then false else true

/-- Aggressive strategy with wild-catching disabled (claim C6). -/
def c6strategy : BattleStrategy := ⟨true, 3/10, true, false⟩

/-- A full-HP active Pokémon knowing only the status move GROWL (claim C6). -/
def c6active : GsPokemon := ⟨"PIKACHU", 5, 10, 10, ["GROWL"]⟩

/-- The wild opponent for claim C6. -/
def c6opponent : GsPokemon := ⟨"GASTLY", 5, 10, 10, ["LICK"]⟩

/-- Wild battle state for claim C6. -/
def c6state : AiGameState :=
  ⟨GameMode.battle, some ⟨some c6active, some c6opponent, true⟩, ⟨[c6active]⟩⟩

/-- The spec-side view of the same move list: GROWL as a status move with
zero power and no remaining uses — it scores zero under the claim's rule. -/
def c6specMoves : List SpecMove := [⟨"GROWL", 0, "NORMAL", 0, "status"⟩]

/-- A zero-power FIRE move (claim C7). -/
def c7fire : CrewMove := ⟨0, "FIRE", "special"⟩

/-- A zero-power WATER move of the same category (claim C7). -/
def c7water : CrewMove := ⟨0, "WATER", "special"⟩

/-- Recovery table routing menu-named tasks to `reset_to_main`
(claim C10), with every agent present. -/
def c10cfg : CrewCfg :=
  ⟨3, 3, [("battle", "retreat"), ("menu", "reset_to_main")], true, true, true, true⟩

/-! ### Helper lemmas (shared) -/

/-- The agent a tick invokes is `get_appropriate_agent` of the current
snapshot, independently of the manager's mutable state. -/
lemma crewUpdate_invoked (agents : AgentList) (m : CrewMState) (s : IGameState) :
    (crewUpdate agents m s).2.1 = getAppropriateAgent agents s := by
  unfold crewUpdate
  cases h : getAppropriateAgent agents s <;> simp [h]

/-- The query log of a tick is the `can_handle` answer of every registered
agent, in registration order. -/
lemma crewUpdate_log (agents : AgentList) (m : CrewMState) (s : IGameState) :
    (crewUpdate agents m s).2.2 = agents.map (fun a => (a.1, a.2 s)) := by
  unfold crewUpdate
  cases h : getAppropriateAgent agents s <;> simp [h]

/-- Membership characterization of `get_ready_tasks`. -/
lemma mem_getReadyTasks_iff (deps : List (String × List String))
    (completed : List String) (n : String) :
    n ∈ getReadyTasks deps completed ↔
      ∃ ds, (n, ds) ∈ deps ∧ n ∉ completed ∧ ∀ d ∈ ds, d ∈ completed := by
  unfold getReadyTasks
  simp only [List.mem_map, List.mem_filter]
  constructor
  · rintro ⟨⟨n', ds⟩, ⟨hmem, hcond⟩, rfl⟩
    simp only [Bool.and_eq_true, Bool.not_eq_true', List.all_eq_true,
      List.elem_iff] at hcond
    refine ⟨ds, hmem, ?_, hcond.2⟩
    simpa [List.elem_iff] using hcond.1
  · rintro ⟨ds, hmem, hnot, hsub⟩
    refine ⟨(n, ds), ⟨hmem, ?_⟩, rfl⟩
    simp only [Bool.and_eq_true, Bool.not_eq_true', List.all_eq_true]
    constructor
    · simpa [List.elem_iff] using hnot
    · intro d hd
      exact List.elem_iff.mpr (hsub d hd)

/-- Values of duplicate-free-keyed association lists are determined by
their key. -/
lemma assoc_nodup_eq {ds ds' : List String} {deps : List (String × List String)}
    {n : String} (hnodup : (deps.map Prod.fst).Nodup)
    (h1 : (n, ds) ∈ deps) (h2 : (n, ds') ∈ deps) : ds = ds' := by
  induction deps with
  | nil => cases h1
  | cons hd tl ih =>
    simp only [List.map_cons, List.nodup_cons] at hnodup
    rcases List.mem_cons.mp h1 with ha | ha
    · rcases List.mem_cons.mp h2 with hb | hb
      · rw [← ha] at hb
        simpa using hb.symm
      · exfalso
        apply hnodup.1
        rw [← ha]
        exact List.mem_map.mpr ⟨(n, ds'), hb, rfl⟩
    · rcases List.mem_cons.mp h2 with hb | hb
      · exfalso
        apply hnodup.1
        rw [← hb]
        exact List.mem_map.mpr ⟨(n, ds), ha, rfl⟩
      · exact ih hnodup.2 ha hb

/-- Recording an error for a task increments that task's error count. -/
lemma errCount_recordError (errs : List (String × Nat)) (name : String) :
    errCount (recordError errs name) name = errCount errs name + 1 := by
  induction errs with
  | nil => simp [recordError, errCount]
  | cons hd tl ih =>
    by_cases h : hd.1 = name <;> simp [recordError, errCount, h, ih]

/-! ### Claim theorems -/

/-- C2 (counterexample): the claimed rule is wrong — with two snapshots
agreeing on battle presence, menu presence and map but differing in
`mode`, `_state_changed` returns `false` although the claim's
right-hand side (mode differs, or battle presence differs, or map
differs) is true.  The check compares `in_menu`, never `mode`. -/
theorem mode_change_not_detected_cex :
    ¬(((stateChanged (some c2prev) c2cur).1 = true) ↔
      (c2prev.mode ≠ c2cur.mode ∨ c2prev.inBattle ≠ c2cur.inBattle ∨
       c2prev.currentMap ≠ c2cur.currentMap)) := by
  decide

/-- C2 (amended): `_state_changed` returns `true` when the previous
snapshot is null; otherwise it returns `true` exactly when battle presence
(`in_battle`), menu presence (`in_menu`) or the map identifier
(`current_map`) differs between the two snapshots; the `mode` field and
the player position of the previous snapshot are never consulted, so
position deltas within the same map never count as a change. -/
theorem state_changed_rule (last cur : IGameState) :
    ((stateChanged (some last) cur).1 = true ↔
      (cur.inBattle ≠ last.inBattle ∨ cur.inMenu ≠ last.inMenu ∨
       cur.currentMap ≠ last.currentMap))
    ∧ (stateChanged none cur).1 = true
    ∧ (∀ px py m,
        (stateChanged (some { last with playerX := px, playerY := py, mode := m }) cur).1
          = (stateChanged (some last) cur).1) := by
  refine ⟨?_, rfl, fun px py m => rfl⟩
  simp [stateChanged]
  tauto

/-- C8 (counterexample): `_state_changed` is not pure — a first call with
a non-null previous snapshot returns `true` and overwrites the retained
snapshot with the current one, so the second call with the same current
snapshot returns `false`: two calls on the same pair disagree. -/
theorem state_changed_impure_cex :
    (stateChanged (some c8prev) c8cur).1 = true ∧
    (stateChanged ((stateChanged (some c8prev) c8cur).2) c8cur).1 = false ∧
    (stateChanged (some c8prev) c8cur).2 ≠ some c8prev := by
  decide

/-- C8 (amended): the non-null path of `_state_changed` mutates the
arbiter — it overwrites `last_state` with the current snapshot — so an
immediately repeated call with the same current snapshot always returns
`false`; only the null-previous path leaves the retained snapshot
untouched (returning `true` without recording anything). -/
theorem state_changed_overwrites_last (last cur : IGameState) :
    (stateChanged (some last) cur).2 = some cur ∧
    (stateChanged ((stateChanged (some last) cur).2) cur).1 = false ∧
    (stateChanged none cur).2 = none := by
  refine ⟨rfl, ?_, rfl⟩
  simp [stateChanged]

/-- C3 (counterexample): two consecutive ticks observe the identical
battle snapshot with one registered controller; the second tick invokes
the same controller, but its `can_handle` loop still queries the
controller — the query log of the second tick is nonempty, contradicting
the claim that no `can_handle` is queried then. -/
theorem crew_update_requeries_can_handle_cex :
    ((crewUpdate c3agents c3m0 c3state).2.1 = some "battle") ∧
    ((crewUpdate c3agents (crewUpdate c3agents c3m0 c3state).1 c3state).2.1 = some "battle") ∧
    ¬((crewUpdate c3agents (crewUpdate c3agents c3m0 c3state).1 c3state).2.2 = []) := by
  refine ⟨rfl, rfl, ?_⟩
  decide

/-- C3 (amended): across two consecutive ticks observing the same
snapshot, the same controller is invoked on both ticks — but only because
`get_appropriate_agent` recomputes the same deterministic selection, not
because of a sticky bypass: the tick queries `can_handle` of every
registered controller every time (one log entry per registered agent). -/
theorem crew_update_sticky_reselect (agents : AgentList) (m : CrewMState) (s : IGameState) :
    (crewUpdate agents (crewUpdate agents m s).1 s).2.1 = (crewUpdate agents m s).2.1 ∧
    (crewUpdate agents (crewUpdate agents m s).1 s).2.2.length = agents.length := by
  constructor
  · rw [crewUpdate_invoked, crewUpdate_invoked]
  · rw [crewUpdate_log, List.length_map]

/-- C4: `get_ready_tasks` returns exactly the registered tasks that are
not completed and whose declared dependency set is contained in the
completed set; in the diamond DAG, `D` is ready only when both `B` and
`C` are completed. -/
theorem get_ready_tasks_exactly_deps_satisfied :
    (∀ (deps : List (String × List String)) (completed : List String) (n : String),
      n ∈ getReadyTasks deps completed ↔
        ∃ ds, (n, ds) ∈ deps ∧ n ∉ completed ∧ ∀ d ∈ ds, d ∈ completed) ∧
    (∀ completed : List String,
      "D" ∈ getReadyTasks diamondDeps completed →
        "B" ∈ completed ∧ "C" ∈ completed) := by
  constructor
  · exact mem_getReadyTasks_iff
  · intro completed h
    rw [mem_getReadyTasks_iff] at h
    obtain ⟨ds, hmem, hnot, hsub⟩ := h
    have hds : ds = ["B", "C"] := by
      simp only [diamondDeps, List.mem_cons, Prod.mk.injEq, List.not_mem_nil] at hmem
      rcases hmem with ⟨h, _⟩ | ⟨h, _⟩ | ⟨h, _⟩ | hmem
      · exact absurd h (by decide)
      · exact absurd h (by decide)
      · exact absurd h (by decide)
      · rcases hmem with ⟨_, h⟩ | hmem
        · exact h
        · exact absurd hmem (by simp)
    subst hds
    exact ⟨hsub "B" (by simp), hsub "C" (by simp)⟩

/-- C4 (witness): in the diamond DAG with `A`, `B`, `C` completed, `D` is
ready, and the theorem yields that `B` and `C` are indeed completed. -/
theorem get_ready_tasks_exactly_deps_satisfied_w :
    "D" ∈ getReadyTasks diamondDeps ["A", "B", "C"] ∧
    "B" ∈ ["A", "B", "C"] ∧ "C" ∈ ["A", "B", "C"] :=
  ⟨by decide,
   get_ready_tasks_exactly_deps_satisfied.2 ["A", "B", "C"] (by decide)⟩

/-- C7 (counterexample): for two moves of equal power and category whose
multipliers against the same opponent are `2` and `0.5`, the score of the
first is not strictly higher when the shared power is `0` — both scores
are `0`. -/
theorem move_score_zero_power_cex :
    c7fire.power = c7water.power ∧
    c7fire.category = c7water.category ∧
    getTypeEffectiveness "FIRE" ["GRASS"] = 2 ∧
    getTypeEffectiveness "WATER" ["GRASS"] = 1 / 2 ∧
    ¬(calculateMoveScore c7water ["GRASS"] < calculateMoveScore c7fire ["GRASS"]) := by
  refine ⟨rfl, rfl, ?_, ?_, ?_⟩
  · simp [getTypeEffectiveness, chartHasMoveType, typeChartLocal]
  · simp [getTypeEffectiveness, chartHasMoveType, typeChartLocal]
  · simp [calculateMoveScore, c7fire, c7water]

/-- C7 (amended): for two moves of equal positive power (and any equal
category — `_calculate_move_score` never reads the category), the move
with effectiveness multiplier `2` scores strictly higher than the one
with multiplier `0.5`; and the multiplier against a multi-typed opponent
is the product of the per-type chart factors, with every unlisted pairing
contributing the neutral factor `1`. -/
theorem move_score_strict_monotone_and_product :
    (∀ (p : ℚ) (cat t1 t2 : String) (opp : List String),
      0 < p →
      getTypeEffectiveness t1 opp = 2 →
      getTypeEffectiveness t2 opp = 1 / 2 →
      calculateMoveScore ⟨p, t2, cat⟩ opp < calculateMoveScore ⟨p, t1, cat⟩ opp) ∧
    (∀ (mt : String) (dts : List String),
      getTypeEffectiveness mt dts =
        (dts.map (fun dt => (typeChartLocal mt dt).getD 1)).prod) := by
  constructor
  · intro p cat t1 t2 opp hp h1 h2
    simp only [calculateMoveScore, h1, h2]
    have : (1 / 2 : ℚ) < 2 := by norm_num
    exact mul_lt_mul_of_pos_left this hp
  · intro mt dts
    unfold getTypeEffectiveness
    by_cases hc : chartHasMoveType mt = true
    · simp only [hc, Bool.not_true, Bool.false_eq_true, if_false]
      have key : ∀ (l : List String) (a : ℚ),
          l.foldl (fun m dt =>
            match typeChartLocal mt dt with
            | some f => m * f
            | none => m) a
            = a * (l.map (fun dt => (typeChartLocal mt dt).getD 1)).prod := by
        intro l
        induction l with
        | nil => intro a; simp
        | cons hd tl ih =>
          intro a
          cases h : typeChartLocal mt hd with
          | none => simp [h, ih]
          | some f => simp [h, ih, mul_assoc]
      simpa using key dts 1
    · have hcf : chartHasMoveType mt = false := by
        revert hc
        cases chartHasMoveType mt <;> simp
      have h3 : (¬(mt = "FIRE") ∧ ¬(mt = "WATER")) ∧ ¬(mt = "GRASS") := by
        simpa [chartHasMoveType] using hcf
      have hnone : ∀ dt, typeChartLocal mt dt = none := by
        intro dt
        simp [typeChartLocal, h3.1.1, h3.1.2, h3.2]
      rw [show (fun dt => (typeChartLocal mt dt).getD 1) = (fun _ : String => (1 : ℚ)) from
        funext (fun dt => by rw [hnone dt]; rfl)]
      simp [hcf]

/-- C7 (witness): at power `2`, a FIRE move against a GRASS opponent
(multiplier `2`) outranks a WATER move (multiplier `0.5`). -/
theorem move_score_strict_monotone_and_product_w :
    (0 : ℚ) < 2 ∧
    calculateMoveScore ⟨2, "WATER", "special"⟩ ["GRASS"]
      < calculateMoveScore ⟨2, "FIRE", "special"⟩ ["GRASS"] :=
  ⟨by norm_num,
   move_score_strict_monotone_and_product.1 2 "special" "FIRE" "WATER" ["GRASS"]
     (by norm_num)
     (by simp [getTypeEffectiveness, chartHasMoveType, typeChartLocal])
     (by simp [getTypeEffectiveness, chartHasMoveType, typeChartLocal])⟩

/-- C10: the `reset_to_main` recovery strategy can never succeed —
`_execute_recovery_action` returns `False` whether or not a menu agent is
registered (with one, the undefined `MenuRequest` / `MenuAction` names
raise `NameError`, swallowed by the handler) — so `handle_error` on a
failed task whose matched recovery action is `reset_to_main` reports
failure and leaves the consecutive-failure counter incremented, never
reset. -/
theorem menu_recovery_always_fails (cfg : CrewCfg) (st : SchedState) (name : String)
    (hmatch : matchRecovery cfg.recoveryActions name = some "reset_to_main")
    (hbudget : st.consecutiveFailures + 1 ≤ cfg.maxConsecutiveFailures) :
    executeRecoveryAction cfg "reset_to_main" = false ∧
    (handleError cfg st name).1 = false ∧
    (handleError cfg st name).2.consecutiveFailures = st.consecutiveFailures + 1 := by
  have hrec : executeRecoveryAction cfg "reset_to_main" = false := by
    unfold executeRecoveryAction executeRecoveryActionBody
    cases cfg.hasMenuAgent <;> simp
  have hnotover : ¬(cfg.maxConsecutiveFailures < st.consecutiveFailures + 1) :=
    Nat.not_lt.mpr hbudget
  refine ⟨hrec, ?_, ?_⟩
  · unfold handleError
    simp only [hnotover, if_false, hmatch]
    exact hrec
  · unfold handleError
    simp only [hnotover, if_false, hmatch]

/-- C10 (witness): the task name `open_menu` matches the `menu` error type
and so routes to `reset_to_main`; `handle_error` on it reports failure
with the counter at `1`. -/
theorem menu_recovery_always_fails_w :
    matchRecovery c10cfg.recoveryActions "open_menu" = some "reset_to_main" ∧
    (0 : Nat) + 1 ≤ c10cfg.maxConsecutiveFailures ∧
    (handleError c10cfg ⟨[], 0, []⟩ "open_menu").1 = false ∧
    (handleError c10cfg ⟨[], 0, []⟩ "open_menu").2.consecutiveFailures = 0 + 1 :=
  ⟨by decide, by decide,
   (menu_recovery_always_fails c10cfg ⟨[], 0, []⟩ "open_menu" (by decide) (by decide)).2.1,
   (menu_recovery_always_fails c10cfg ⟨[], 0, []⟩ "open_menu" (by decide) (by decide)).2.2⟩

/-- Behavior of `analyze_state` once the guards pass and wild-catching is
off: Attack at index 0 iff the move list is nonempty, Run iff it is empty
and the battle is wild. -/
lemma analyzeState_catchOff (strategy : BattleStrategy) (st : AiGameState)
    (b : AiBattleState) (active opponent : GsPokemon)
    (hmode : st.mode = GameMode.battle)
    (hb : st.battle = some b)
    (hact : b.activePokemon = some active)
    (hopp : b.opponentPokemon = some opponent)
    (hcatch : strategy.catchWild = false) :
    analyzeState strategy st =
      (if active.moves.isEmpty then
        (if b.isWildBattle then some ⟨"run", none, none, 0⟩ else none)
       else some ⟨"attack", some 0, none, 1⟩) := by
  unfold analyzeState
  rw [hmode, hb]
  simp only [hact, hopp, hcatch, Bool.false_and, Bool.and_eq_true, chooseSwitchTarget,
    chooseBestMove]
  split <;> split <;> (try simp_all) <;>
    (by_cases hm : active.moves = [] <;> simp_all)

/-- C6 (counterexample): in a wild battle where the active Pokémon knows
only GROWL — which the claim's scoring rule (status category, zero power,
no remaining uses) scores at zero — `analyze_state` issues an Attack on
move index 0, while the claim's rule mandates Run: the source's
`_choose_best_move` performs no scoring at all (the `Pokemon.moves` it
receives are bare name strings with no power, remaining-use or category
data) and returns index 0 whenever the move list is nonempty. -/
theorem battle_attack_ignores_scoring_cex :
    analyzeState c6strategy c6state = some ⟨"attack", some 0, none, 1⟩ ∧
    specAttackOrRun getTypeEffectiveness ["GHOST"] c6specMoves true
      = some ⟨"run", none, none, 0⟩ ∧
    c6specMoves.map (fun m => m.name) = c6active.moves := by
  refine ⟨?_, ?_, rfl⟩
  · rw [analyzeState_catchOff c6strategy c6state ⟨some c6active, some c6opponent, true⟩
      c6active c6opponent rfl rfl rfl rfl rfl]
    simp [c6active]
  · simp [specAttackOrRun, c6specMoves, specMoveScore]

/-- C6 (amended): once the in-battle and data-presence guards pass and
wild-catching is disabled, `analyze_state` issues Attack at move index 0
exactly when the active Pokémon's move list is nonempty — regardless of
any power, remaining uses or category, which the move representation does
not carry — and issues Run exactly when the move list is empty and the
battle is wild (the switch branch can never fire because
`_choose_switch_target` is stubbed to `None`). -/
theorem analyze_state_attack_iff_moves (strategy : BattleStrategy) (st : AiGameState)
    (b : AiBattleState) (active opponent : GsPokemon)
    (hmode : st.mode = GameMode.battle)
    (hb : st.battle = some b)
    (hact : b.activePokemon = some active)
    (hopp : b.opponentPokemon = some opponent)
    (hcatch : strategy.catchWild = false) :
    analyzeState strategy st =
      (if active.moves.isEmpty then
        (if b.isWildBattle then some ⟨"run", none, none, 0⟩ else none)
       else some ⟨"attack", some 0, none, 1⟩) :=
  analyzeState_catchOff strategy st b active opponent hmode hb hact hopp hcatch

/-- C6 (witness): the theorem applied to the concrete wild-battle state of
the counterexample yields the Attack-at-0 outcome for the one-move list. -/
theorem analyze_state_attack_iff_moves_w :
    analyzeState c6strategy c6state =
      (if c6active.moves.isEmpty then
        (if true then some ⟨"run", none, none, 0⟩ else none)
       else some ⟨"attack", some 0, none, 1⟩) :=
  analyze_state_attack_iff_moves c6strategy c6state
    ⟨some c6active, some c6opponent, true⟩ c6active c6opponent rfl rfl rfl rfl rfl

/-- Retry loop on an always-failing body with no matching recovery and
enough consecutive-failure budget: every attempt fails, records one error,
and bumps the counter; the loop exhausts its range and returns `None` with
the completed set untouched. -/
lemma executeTaskAttempts_all_fail (cfg : CrewCfg) (name : String) (body : Nat → Bool)
    (hbody : ∀ k, body k = false)
    (hrec : matchRecovery cfg.recoveryActions name = none) :
    ∀ (n attempt : Nat) (st : SchedState),
      st.consecutiveFailures + n ≤ cfg.maxConsecutiveFailures →
      (executeTaskAttempts cfg name body n attempt st).1 = none ∧
      (executeTaskAttempts cfg name body n attempt st).2.completed = st.completed ∧
      (executeTaskAttempts cfg name body n attempt st).2.consecutiveFailures
        = st.consecutiveFailures + n ∧
      errCount (executeTaskAttempts cfg name body n attempt st).2.taskErrors name
        = errCount st.taskErrors name + n := by
  intro n
  induction n with
  | zero => intro attempt st hbudget; simp [executeTaskAttempts]
  | succ m ih =>
    intro attempt st hbudget
    have hnotover : ¬(cfg.maxConsecutiveFailures < st.consecutiveFailures + 1) :=
      Nat.not_lt.mpr (Nat.le_trans (by omega) hbudget)
    have hstep : handleError cfg st name =
        (true, ⟨st.completed, st.consecutiveFailures + 1,
                recordError st.taskErrors name⟩) := by
      unfold handleError
      simp only [hnotover, if_false, hrec]
    have hb := hbody attempt
    have hrun : executeTaskAttempts cfg name body (m + 1) attempt st
        = executeTaskAttempts cfg name body m (attempt + 1)
            ⟨st.completed, st.consecutiveFailures + 1, recordError st.taskErrors name⟩ := by
      conv_lhs => rw [executeTaskAttempts]
      simp only [hb, Bool.false_eq_true, if_false, hstep]
    rw [hrun]
    have hih := ih (attempt + 1)
      ⟨st.completed, st.consecutiveFailures + 1, recordError st.taskErrors name⟩
      (by dsimp only; omega)
    dsimp only at hih
    refine ⟨hih.1, hih.2.1, ?_, ?_⟩
    · rw [hih.2.2.1]; omega
    · rw [hih.2.2.2, errCount_recordError]; omega

/-- C5 (counterexample): two independent tasks, `A` with an always-failing
body and `B` with an always-succeeding one, under the default limits
(`max_retries = 3`, `max_consecutive_failures = 3`): `execute_all_tasks`
returns `False` right after `A` exhausts its three attempts, with nothing
completed — in particular `B` is never executed, so the independent branch
does not continue. -/
theorem execute_all_tasks_aborts_on_failure_cex :
    executeAllTasks c5cfg c5deps c5tasks c5bodies 3 ⟨[], 0, []⟩
      = (false, ⟨[], 3, [("A", 3)]⟩) ∧
    c5bodies "B" 0 = true ∧
    "B" ∉ (executeAllTasks c5cfg c5deps c5tasks c5bodies 3 ⟨[], 0, []⟩).2.completed := by
  refine ⟨by decide, by decide, by decide⟩

/-- C5 (amended): a task whose body always fails, when no recovery action
matches its name and the consecutive-failure budget is not exhausted, is
attempted exactly `max_retries` times (one recorded error per attempt),
returns `None`, and is never added to the completed set — there is no
explicit `Failed` marking — so (for duplicate-free task keys) every task
depending on it never becomes ready; `execute_all_tasks`, however, aborts
on the first failed task instead of continuing independent branches. -/
theorem execute_task_bounded_retry (cfg : CrewCfg) (deps : List (String × List String))
    (name : String) (body : Nat → Bool) (st : SchedState)
    (hbody : ∀ k, body k = false)
    (hrec : matchRecovery cfg.recoveryActions name = none)
    (hbudget : st.consecutiveFailures + cfg.maxRetries ≤ cfg.maxConsecutiveFailures)
    (hdeps : (depsOf deps name).all (fun d => st.completed.contains d) = true)
    (hnotdone : name ∉ st.completed)
    (hnodup : (deps.map Prod.fst).Nodup) :
    (executeTask cfg deps name body st).1 = none ∧
    (executeTask cfg deps name body st).2.completed = st.completed ∧
    errCount (executeTask cfg deps name body st).2.taskErrors name
      = errCount st.taskErrors name + cfg.maxRetries ∧
    (∀ d ds, (d, ds) ∈ deps → name ∈ ds →
      d ∉ getReadyTasks deps (executeTask cfg deps name body st).2.completed) := by
  have hrun : executeTask cfg deps name body st
      = executeTaskAttempts cfg name body cfg.maxRetries 0 st := by
    unfold executeTask
    simp only [hdeps, Bool.not_true, Bool.false_eq_true, if_false]
  have hmain := executeTaskAttempts_all_fail cfg name body hbody hrec cfg.maxRetries 0 st hbudget
  rw [hrun]
  refine ⟨hmain.1, hmain.2.1, hmain.2.2.2, ?_⟩
  intro d ds hd hname hready
  rw [mem_getReadyTasks_iff] at hready
  obtain ⟨ds', hds', hnotc, hsub⟩ := hready
  have : ds' = ds := assoc_nodup_eq hnodup hds' hd
  subst this
  have : name ∈ (executeTaskAttempts cfg name body cfg.maxRetries 0 st).2.completed :=
    hsub name hname
  rw [hmain.2.1] at this
  exact hnotdone this

/-- C5 (witness): the always-failing task `A` (dependency-free, fresh
scheduler state, default limits) yields `None`, an unchanged completed
set, three recorded errors, and leaves its dependent `B` outside the ready
set. -/
theorem execute_task_bounded_retry_w :
    (executeTask c5cfg [("A", []), ("B", ["A"])] "A" (fun _ => false) ⟨[], 0, []⟩).1 = none ∧
    (executeTask c5cfg [("A", []), ("B", ["A"])] "A" (fun _ => false) ⟨[], 0, []⟩).2.completed
      = [] ∧
    errCount
      (executeTask c5cfg [("A", []), ("B", ["A"])] "A" (fun _ => false) ⟨[], 0, []⟩).2.taskErrors
      "A" = 0 + 3 ∧
    "B" ∉ getReadyTasks [("A", []), ("B", ["A"])]
      (executeTask c5cfg [("A", []), ("B", ["A"])] "A" (fun _ => false) ⟨[], 0, []⟩).2.completed :=
  have h := execute_task_bounded_retry c5cfg [("A", []), ("B", ["A"])] "A" (fun _ => false)
    ⟨[], 0, []⟩ (fun _ => rfl) (by decide) (by decide) (by decide) (by decide) (by decide)
  ⟨h.1, h.2.1, h.2.2.1, h.2.2.2 "B" ["A"] (by decide) (by decide)⟩

/-- C9: whenever start equals goal and the point is within the mask
bounds, `find_path` returns the single-node path `[start]` — the first
heap pop is the start node, which already satisfies the goal test, so the
search returns before any neighbor is expanded; walkability of the
start/goal cell is never consulted (the theorem quantifies over every
mask, including ones whose start cell is blocked). -/
theorem find_path_start_eq_goal (grid : List (List Bool)) (x y : Int)
    (h : isValidPosition (gridWidth grid) (gridHeight grid) x y = true) :
    findPath grid (x, y) (x, y) = [(x, y)] := by
  unfold findPath
  simp only [h, Bool.not_true, Bool.false_eq_true, if_false]
  rw [searchLoop]
  simp only [heappop, lget, lset]
  norm_num
  simp [reconstructPath, storeFind]

/-- C9 (witness): on the 1×1 mask whose only cell is blocked, the search
from `(0, 0)` to itself still returns `[(0, 0)]`. -/
theorem find_path_start_eq_goal_w :
    isValidPosition (gridWidth [[false]]) (gridHeight [[false]]) 0 0 = true ∧
    findPath [[false]] (0, 0) (0, 0) = [(0, 0)] :=
  ⟨by decide, find_path_start_eq_goal [[false]] 0 0 (by decide)⟩

/-- C1: the pathfinder is not optimal.  On `pfCexMask` (9×5, two blocked
cells) the Manhattan distance from `(8, 3)` to `(0, 1)` is 10 and
`pfCexGeodesic` is an 11-node all-walkable cardinal geodesic between them
— the claim's hypothesis holds and it mandates a returned node count of
11 — yet `find_path` returns a 13-node path.  The cause: when a node
already inside the `heapq` list gets a strictly better `g_cost`, the code
mutates it in place without re-sifting, breaking the heap invariant, so
later pops are not minimal and the goal can be finalized at a suboptimal
cost.  The claim's own 5×5 example does hold (node count 9). -/
theorem find_path_suboptimal_despite_open_geodesic :
    findPath pfCexMask (8, 3) (0, 1) =
      [(8, 3), (8, 2), (8, 1), (7, 1), (6, 1), (5, 1), (4, 1), (3, 1),
       (3, 0), (2, 0), (1, 0), (0, 0), (0, 1)] ∧
    (findPath pfCexMask (8, 3) (0, 1)).length = 13 ∧
    calculateHCost 8 3 0 1 + 1 = 11 ∧
    pfCexGeodesic.head? = some (8, 3) ∧
    pfCexGeodesic.getLast? = some (0, 1) ∧
    isCardinalPath pfCexGeodesic = true ∧
    pathInGrid pfCexMask pfCexGeodesic = true ∧
    pfCexGeodesic.length = calculateHCost 8 3 0 1 + 1 ∧
    (findPath pfGrid5 (0, 0) (4, 4)).length = 9 := by
  refine ⟨by decide, by decide, by decide, by decide, by decide, by decide, by decide,
    by decide, by decide⟩

end PokemonRom
